import Mathlib

/-!
Verification of `monitor-systemtimechanges` (`src/main.py`), a clock-deviation
monitor.  The program validates two positive-integer configuration values
(`interval`, `threshold`), then loops: read the wall clock, compute the elapsed
time since the previous sample, emit a warning to the log and to the console
when `|delta - interval| > threshold`, store the current sample as
`last_time`, and sleep for `interval` seconds.

The embedding models wall-clock readings as exact rationals, one loop
iteration as a function from the mutable state and the fresh clock reading to
an event trace plus the successor state, and a whole run as the fold of that
step over a list of clock readings.  The exceptional exits of `main`
(KeyboardInterrupt, unexpected exception) are modelled by an explicit exit
reason.
-/

namespace MonitorTime

section Development

attribute [local semireducible] Rat.add Rat.sub Rat.mul Rat.inv

/-- The validated configuration (`args` after `check_positive_int` in
`main`): `--interval`, `--threshold` (both positive integers once
validation has passed) and `--log-file`. -/
structure Args where
  interval : Int
  threshold : Int
  log_file : String
deriving DecidableEq

/-- Observable actions of the process: records written to the log sink
(`logging.info` / `logging.warning` / `logging.error`), lines printed to the
interactive output (`print`), the assignment `last_time = current_time`, and
the blocking wait `time.sleep(args.interval)`. -/
inductive Event
  | logInfo (msg : String)
  | logWarning (msg : String)
  | logError (msg : String)
  | consolePrint (msg : String)
  | setLast (t : ℚ)
  | sleep (secs : Int)
deriving DecidableEq

def isLogWarning : Event → Bool
  | Event.logWarning _ => true
  | _ => false

def isConsolePrint : Event → Bool
  | Event.consolePrint _ => true
  | _ => false

def isLogError : Event → Bool
  | Event.logError _ => true
  | _ => false

def isSetLast : Event → Bool
  | Event.setLast _ => true
  | _ => false

def isSleep : Event → Bool
  | Event.sleep _ => true
  | _ => false

/-- The message payload of a log or console event (empty for the state update
and the wait). -/
def eventMsg : Event → String
  | Event.logInfo m => m
  | Event.logWarning m => m
  | Event.logError m => m
  | Event.consolePrint m => m
  | Event.setLast _ => ""
  | Event.sleep _ => ""

/-- Decimal rendering of the Python format specifier `.2f` (used in the alert
f-string), modelled over exact rationals: the value rounded to two fractional
digits.  Python formats the binary double; on values that the double
represents exactly, such as the integral deltas of the spec scenarios, the two
renderings agree. -/
def formatFixed2 (q : ℚ) : String :=
  let sign := if q < 0 then "-" else ""
  let cents : Int := round (|q| * 100)
  let whole := cents / 100
  let frac := cents % 100
  sign ++ toString whole ++ "." ++ (if frac < 10 then "0" else "") ++ toString frac

/-- The `logging.warning` f-string of the alert branch (`src/main.py:77`). -/
def alertLogMessage (interval : Int) (time_difference : ℚ) : String :=
  "Significant system time change detected: " ++ formatFixed2 time_difference
    ++ " seconds since last check (expected ~" ++ toString interval ++ "s)"

/-- The `print` f-string of the alert branch (`src/main.py:78`). -/
def alertPrintMessage (interval : Int) (time_difference : ℚ) : String :=
  "Warning: " ++ alertLogMessage interval time_difference

/-- The in-process state of `main` while the loop runs: the configuration
(never reassigned) and the one mutable variable `last_time`. -/
structure ProgState where
  args : Args
  last_time : ℚ
deriving DecidableEq

/-- One cycle of the `while True` loop (`src/main.py:72-81`) given the fresh
clock reading `current_time`: compute `time_difference`, emit the two alert
records when `|time_difference - interval| > threshold`, assign
`last_time = current_time`, sleep for `interval` seconds.  Returns the
events of the cycle in program order and the successor state. -/
def loopStep (s : ProgState) (current_time : ℚ) : List Event × ProgState :=
  let time_difference := current_time - s.last_time
  ((if (s.args.threshold : ℚ) < |time_difference - (s.args.interval : ℚ)| then
      [Event.logWarning (alertLogMessage s.args.interval time_difference),
       Event.consolePrint (alertPrintMessage s.args.interval time_difference)]
    else [])
    ++ [Event.setLast current_time, Event.sleep s.args.interval],
   { s with last_time := current_time })

/-- The event trace of finitely many loop cycles, one per clock reading in
`ts` (the successive results of `time.time()` at `src/main.py:73`). -/
def runLoop : ProgState → List ℚ → List Event
  | _, [] => []
  | s, t :: ts => (loopStep s t).1 ++ runLoop (loopStep s t).2 ts

/-- The program state after the loop has consumed the clock readings `ts`. -/
def stateAfter : ProgState → List ℚ → ProgState
  | s, [] => s
  | s, t :: ts => stateAfter (loopStep s t).2 ts

/-- An alert was emitted in the given trace, to the log sink
(`logging.warning`) and to the interactive output (`print`). -/
def alertEmitted (evs : List Event) : Bool :=
  evs.any isLogWarning && evs.any isConsolePrint

/-- Every consecutive delta of the run starting at `last` with clock readings
`ts` stays within `threshold` of `interval` (no clock disturbance). -/
def noDisturbance (args : Args) : ℚ → List ℚ → Bool
  | _, [] => true
  | last, t :: ts =>
      decide (|t - last - (args.interval : ℚ)| ≤ (args.threshold : ℚ))
        && noDisturbance args t ts

/-- How the monitoring region of `main` was left: a KeyboardInterrupt
(`src/main.py:83`) or an unexpected exception with message `e`
(`src/main.py:86`). -/
inductive LoopExit
  | interrupted
  | failed (e : String)
deriving DecidableEq

/-- The exception handlers of `main` (`src/main.py:83-91`): the interrupt
logs a stop message, prints one, and `main` returns 0; an unexpected
exception is logged, printed, and `main` returns 1. -/
def handleExit : LoopExit → List Event × Int
  | LoopExit.interrupted =>
      ([Event.logInfo "System time monitor stopped by user.",
        Event.consolePrint "System time monitor stopped."], 0)
  | LoopExit.failed e =>
      ([Event.logError ("An unexpected error occurred: " ++ e),
        Event.consolePrint ("Error: " ++ e)], 1)

/-- The monitoring region of `main` (`src/main.py:67-91`) after validation:
the start messages, then the loop cycles over the clock readings `ts` from
initial `last_time = t0`, then the events of the exception handler that ended
the run; paired with the return value of `main`. -/
def mainRun (args : Args) (t0 : ℚ) (ts : List ℚ) (exitReason : LoopExit) :
    List Event × Int :=
  ([Event.logInfo "System time monitor started.",
    Event.consolePrint ("System time monitor started.  Logging to " ++ args.log_file)]
    ++ runLoop { args := args, last_time := t0 } ts
    ++ (handleExit exitReason).1,
   (handleExit exitReason).2)

/-- A Python value that can reach `check_positive_int`: an `int` (what
argparse produces for `type=int` options and for the integer defaults) or a
`str`. -/
inductive PyVal
  | int (n : Int)
  | str (s : String)
deriving DecidableEq

/-- Python `str()` on such a value, as used by the f-string of the
validation error message. -/
def pyStrOf : PyVal → String
  | PyVal.int n => toString n
  | PyVal.str s => s

/-- The numeric value of a nonempty all-decimal-digit character list, `none`
otherwise. -/
def decDigitsVal (cs : List Char) : Option Nat :=
  if cs ≠ [] && cs.all Char.isDigit then
    some (cs.foldl (fun a c => a * 10 + (c.toNat - 48)) 0)
  else none

/-- Python `int(string)`: an optional sign followed by decimal digits, `none`
where CPython raises ValueError.  (Surrounding whitespace and underscore
digit grouping, which CPython also accepts, are not modelled; no claim
depends on them.) -/
def parsePyInt (s : String) : Option Int :=
  match s.data with
  | '-' :: rest => (decDigitsVal rest).map (fun n => -(n : Int))
  | '+' :: rest => (decDigitsVal rest).map (fun n => (n : Int))
  | cs => (decDigitsVal cs).map (fun n => (n : Int))

/-- The Python `int()` builtin on an `int` or `str` argument. -/
def pyToInt : PyVal → Option Int
  | PyVal.int n => some n
  | PyVal.str s => parsePyInt s

/-- `check_positive_int` (`src/main.py:23-42`): convert with `int()`
(ValueError becomes an ArgumentTypeError), reject `ivalue <= 0`, return the
integer unchanged otherwise. -/
def check_positive_int (value : PyVal) : Except String Int :=
  match pyToInt value with
  | none =>
      Except.error ("Invalid positive int value: \x27" ++ pyStrOf value ++ "\x27")
  | some ivalue =>
      if ivalue ≤ 0 then
        Except.error ("Invalid positive int value: \x27" ++ pyStrOf value ++ "\x27")
      else
        Except.ok ivalue

/-- How an option value reaches argparse: either the flag was absent and the
declared integer default is used as-is, or the flag was given a command-line
string. -/
inductive Supplied
  | dflt (n : Int)
  | cli (s : String)
deriving DecidableEq

/-- Modelled library behaviour of argparse for an option declared with
`type=int` (`src/main.py:18-19`): a command-line string is converted with the
`int` builtin, and a conversion failure makes the parser print a usage error
and exit the process with status 2; an integer default is used without
conversion. -/
def argparseInt : Supplied → Except Unit Int
  | Supplied.dflt n => Except.ok n
  | Supplied.cli s =>
      match parsePyInt s with
      | some n => Except.ok n
      | none => Except.error ()

/-- The validation block of `main` (`src/main.py:52-58`): `check_positive_int`
on the interval, then on the threshold; a failure logs and prints
`Error: ...` and `main` returns 1. -/
def validateArgs (interval threshold : Int) (log_file : String) :
    Except (List Event × Int) Args :=
  match check_positive_int (PyVal.int interval) with
  | Except.error e =>
      Except.error ([Event.logError ("Error: " ++ e),
                     Event.consolePrint ("Error: " ++ e)], 1)
  | Except.ok i =>
      match check_positive_int (PyVal.int threshold) with
      | Except.error e =>
          Except.error ([Event.logError ("Error: " ++ e),
                         Event.consolePrint ("Error: " ++ e)], 1)
      | Except.ok t =>
          Except.ok { interval := i, threshold := t, log_file := log_file }

/-- How startup can end: argparse rejected a non-numeric option value (usage
error, process exit status carried), `main` rejected a non-positive value
(error events and return value 1), or validation passed and the monitoring
loop starts with the accepted configuration. -/
inductive StartupOutcome
  | usageError (exitCode : Int)
  | configError (events : List Event) (exitCode : Int)
  | started (args : Args)
deriving DecidableEq

/-- Startup of the process for given interval and threshold option values:
argparse conversion of both options (`parse_args`, `src/main.py:49`), then the
positive-integer validation of `main` (`src/main.py:52-58`).  Monitoring
happens only in the `started` outcome. -/
def startup (intervalArg thresholdArg : Supplied) (log_file : String) :
    StartupOutcome :=
  match argparseInt intervalArg with
  | Except.error _ => StartupOutcome.usageError 2
  | Except.ok i =>
      match argparseInt thresholdArg with
      | Except.error _ => StartupOutcome.usageError 2
      | Except.ok t =>
          match validateArgs i t log_file with
          | Except.error (evs, c) => StartupOutcome.configError evs c
          | Except.ok args => StartupOutcome.started args

/-- The exit status the process reports for a startup outcome (`none` when
startup succeeded and the loop runs instead of exiting). -/
def startupExitCode : StartupOutcome → Option Int
  | StartupOutcome.usageError c => some c
  | StartupOutcome.configError _ c => some c
  | StartupOutcome.started _ => none

/-- Substring search helper: does `pat` start the character list? -/
def charsStartWith : List Char → List Char → Bool
  | [], _ => true
  | _ :: _, [] => false
  | p :: ps, c :: cs => p == c && charsStartWith ps cs

/-- Substring search helper: does `pat` occur anywhere in the list? -/
def charsContain (pat : List Char) : List Char → Bool
  | [] => charsStartWith pat []
  | c :: cs => charsStartWith pat (c :: cs) || charsContain pat cs

/-- Does the string `s` contain `pat` as a substring? -/
def strContains (s pat : String) : Bool :=
  charsContain pat.data s.data

/-! ### Helper lemmas -/

theorem loopStep_snd (s : ProgState) (cur : ℚ) :
    (loopStep s cur).2 = { args := s.args, last_time := cur } := rfl

theorem any_isLogWarning_loopStep (s : ProgState) (cur : ℚ) :
    ((loopStep s cur).1.any isLogWarning)
      = decide ((s.args.threshold : ℚ) < |cur - s.last_time - (s.args.interval : ℚ)|) := by
  by_cases h : (s.args.threshold : ℚ) < |cur - s.last_time - (s.args.interval : ℚ)|
  · simp [loopStep, h, isLogWarning]
  · simp [loopStep, h, isLogWarning, isSetLast, isSleep]

theorem any_isConsolePrint_loopStep (s : ProgState) (cur : ℚ) :
    ((loopStep s cur).1.any isConsolePrint)
      = decide ((s.args.threshold : ℚ) < |cur - s.last_time - (s.args.interval : ℚ)|) := by
  by_cases h : (s.args.threshold : ℚ) < |cur - s.last_time - (s.args.interval : ℚ)|
  · simp [loopStep, h, isConsolePrint]
  · simp [loopStep, h, isConsolePrint, isSetLast, isSleep]

theorem alertEmitted_loopStep (s : ProgState) (cur : ℚ) :
    alertEmitted (loopStep s cur).1
      = decide ((s.args.threshold : ℚ) < |cur - s.last_time - (s.args.interval : ℚ)|) := by
  rw [alertEmitted, any_isLogWarning_loopStep, any_isConsolePrint_loopStep, Bool.and_self]

theorem runLoop_any_isLogError (ts : List ℚ) :
    ∀ s : ProgState, (runLoop s ts).any isLogError = false := by
  induction ts with
  | nil => intro s; rfl
  | cons t ts ih =>
      intro s
      rw [runLoop, List.any_append, ih, Bool.or_false]
      by_cases h : (s.args.threshold : ℚ) < |t - s.last_time - (s.args.interval : ℚ)|
      · simp [loopStep, h, isLogError]
      · simp [loopStep, h, isLogError]

theorem stateAfter_args (ts : List ℚ) :
    ∀ s : ProgState, (stateAfter s ts).args = s.args := by
  induction ts with
  | nil => intro s; rfl
  | cons t ts ih => intro s; rw [stateAfter, ih, loopStep_snd]

theorem stateAfter_take_lastTime (ts : List ℚ) :
    ∀ (s : ProgState) (k : ℕ) (hk : k < ts.length),
      (stateAfter s (ts.take (k + 1))).last_time = ts.get ⟨k, hk⟩ := by
  induction ts with
  | nil => intro s k hk; simp at hk
  | cons t ts ih =>
      intro s k hk
      cases k with
      | zero => simp [stateAfter, loopStep_snd]
      | succ k =>
          have hk' : k < ts.length := Nat.lt_of_succ_lt_succ hk
          simpa [stateAfter] using ih (loopStep s t).2 k hk'

/-! ### Claims -/

/-- C1: for a validated configuration (positive interval `i` and threshold
`t`) and consecutive samples `last`, `cur` with elapsed time `delta`, the loop
cycle emits an alert to both the log sink and the interactive output exactly
when `|delta - i| > t`; at `|delta - i| = t` no alert is emitted. -/
theorem claim_C1 (args : Args) (hi : 0 < args.interval) (ht : 0 < args.threshold)
    (last cur delta : ℚ) (hd : delta = cur - last) :
    (((loopStep { args := args, last_time := last } cur).1.any isLogWarning = true
        ∧ (loopStep { args := args, last_time := last } cur).1.any isConsolePrint = true)
      ↔ (args.threshold : ℚ) < |delta - (args.interval : ℚ)|)
    ∧ (|delta - (args.interval : ℚ)| = (args.threshold : ℚ) →
        (loopStep { args := args, last_time := last } cur).1.any isLogWarning = false
        ∧ (loopStep { args := args, last_time := last } cur).1.any isConsolePrint = false) := by
  subst hd
  rw [any_isLogWarning_loopStep, any_isConsolePrint_loopStep]
  constructor
  · simp
  · intro heq
    dsimp only at heq ⊢
    rw [heq]
    simp

/-- Witness for C1 at interval 1, threshold 5, samples 0 and 10. -/
theorem claim_C1_witness :
    (0 < (1 : Int) ∧ 0 < (5 : Int) ∧ (10 : ℚ) = 10 - 0)
    ∧ ((((loopStep { args := { interval := 1, threshold := 5, log_file := "system_time_monitor.log" }, last_time := 0 } 10).1.any isLogWarning = true
        ∧ (loopStep { args := { interval := 1, threshold := 5, log_file := "system_time_monitor.log" }, last_time := 0 } 10).1.any isConsolePrint = true)
      ↔ ((5 : Int) : ℚ) < |(10 : ℚ) - ((1 : Int) : ℚ)|)
    ∧ (|(10 : ℚ) - ((1 : Int) : ℚ)| = ((5 : Int) : ℚ) →
        (loopStep { args := { interval := 1, threshold := 5, log_file := "system_time_monitor.log" }, last_time := 0 } 10).1.any isLogWarning = false
        ∧ (loopStep { args := { interval := 1, threshold := 5, log_file := "system_time_monitor.log" }, last_time := 0 } 10).1.any isConsolePrint = false)) :=
  ⟨⟨by decide, by decide, by decide⟩,
   claim_C1 { interval := 1, threshold := 5, log_file := "system_time_monitor.log" }
     (by decide) (by decide) 0 10 10 (by decide)⟩

/-- C3: the deviation check of the first cycle runs before any wait, with the
previous-sample variable still holding the process-start timestamp; hence,
whenever `interval > threshold`, a run whose first clock reading equals the
start timestamp (first elapsed delta 0) alerts already on the first cycle. -/
theorem claim_C3 (args : Args) (hi : 0 < args.interval)
    (hti : args.threshold < args.interval) (t0 : ℚ) (ts : List ℚ) :
    ∃ rest, runLoop { args := args, last_time := t0 } (t0 :: ts)
        = (loopStep { args := args, last_time := t0 } t0).1 ++ rest
      ∧ alertEmitted (loopStep { args := args, last_time := t0 } t0).1 = true := by
  refine ⟨runLoop (loopStep { args := args, last_time := t0 } t0).2 ts, rfl, ?_⟩
  rw [alertEmitted_loopStep]
  dsimp only
  rw [decide_eq_true_iff]
  have h0 : t0 - t0 - (args.interval : ℚ) = -(args.interval : ℚ) := by ring
  rw [h0, abs_neg, abs_of_pos (show (0 : ℚ) < (args.interval : ℚ) by exact_mod_cast hi)]
  exact_mod_cast hti

/-- Witness for C3 at interval 3, threshold 1, start time 0, empty tail. -/
theorem claim_C3_witness :
    (0 < (3 : Int) ∧ (1 : Int) < 3)
    ∧ ∃ rest, runLoop { args := { interval := 3, threshold := 1, log_file := "system_time_monitor.log" }, last_time := 0 } (0 :: [])
        = (loopStep { args := { interval := 3, threshold := 1, log_file := "system_time_monitor.log" }, last_time := 0 } 0).1 ++ rest
      ∧ alertEmitted (loopStep { args := { interval := 3, threshold := 1, log_file := "system_time_monitor.log" }, last_time := 0 } 0).1 = true :=
  ⟨⟨by decide, by decide⟩,
   claim_C3 { interval := 3, threshold := 1, log_file := "system_time_monitor.log" }
     (by decide) (by decide) 0 []⟩

/-- C6: a run all of whose consecutive elapsed deltas stay within the
threshold of the interval emits no alert in any cycle, however many cycles
occur. -/
theorem claim_C6 (args : Args) (t0 : ℚ) (ts : List ℚ)
    (h : noDisturbance args t0 ts = true) :
    (runLoop { args := args, last_time := t0 } ts).any isLogWarning = false
    ∧ (runLoop { args := args, last_time := t0 } ts).any isConsolePrint = false := by
  induction ts generalizing t0 with
  | nil => exact ⟨rfl, rfl⟩
  | cons t ts ih =>
      rw [noDisturbance, Bool.and_eq_true, decide_eq_true_eq] at h
      obtain ⟨h1, h2⟩ := h
      have hnot : ¬ ((args.threshold : ℚ) < |t - t0 - (args.interval : ℚ)|) := not_lt.mpr h1
      obtain ⟨ihw, ihp⟩ := ih t h2
      rw [runLoop, loopStep_snd, List.any_append, List.any_append,
        any_isLogWarning_loopStep, any_isConsolePrint_loopStep]
      dsimp only
      rw [decide_eq_false hnot, ihw, ihp]
      exact ⟨rfl, rfl⟩

/-- Witness for C6 at interval 1, threshold 5, readings 1, 2, 3 from start 0. -/
theorem claim_C6_witness :
    (noDisturbance { interval := 1, threshold := 5, log_file := "system_time_monitor.log" } 0 [1, 2, 3] = true)
    ∧ ((runLoop { args := { interval := 1, threshold := 5, log_file := "system_time_monitor.log" }, last_time := 0 } [1, 2, 3]).any isLogWarning = false
    ∧ (runLoop { args := { interval := 1, threshold := 5, log_file := "system_time_monitor.log" }, last_time := 0 } [1, 2, 3]).any isConsolePrint = false) :=
  ⟨by decide,
   claim_C6 { interval := 1, threshold := 5, log_file := "system_time_monitor.log" } 0 [1, 2, 3]
     (by decide)⟩

/-- C8: the alert decision is symmetric around the interval: a cycle whose
elapsed time exceeds the interval by `d` alerts exactly when a cycle whose
elapsed time falls short of the interval by the same `d` does. -/
theorem claim_C8 (args : Args) (last d : ℚ) (hd : 0 ≤ d) :
    alertEmitted (loopStep { args := args, last_time := last }
        (last + (args.interval : ℚ) + d)).1
      = alertEmitted (loopStep { args := args, last_time := last }
        (last + (args.interval : ℚ) - d)).1 := by
  rw [alertEmitted_loopStep, alertEmitted_loopStep]
  dsimp only
  have h1 : last + (args.interval : ℚ) + d - last - (args.interval : ℚ) = d := by ring
  have h2 : last + (args.interval : ℚ) - d - last - (args.interval : ℚ) = -d := by ring
  rw [h1, h2, abs_neg]

/-- Witness for C8 at interval 1, threshold 5, last sample 0, offset 7. -/
theorem claim_C8_witness :
    ((0 : ℚ) ≤ 7)
    ∧ alertEmitted (loopStep { args := { interval := 1, threshold := 5, log_file := "system_time_monitor.log" }, last_time := 0 }
        (0 + ((1 : Int) : ℚ) + 7)).1
      = alertEmitted (loopStep { args := { interval := 1, threshold := 5, log_file := "system_time_monitor.log" }, last_time := 0 }
        (0 + ((1 : Int) : ℚ) - 7)).1 :=
  ⟨by decide,
   claim_C8 { interval := 1, threshold := 5, log_file := "system_time_monitor.log" } 0 7
     (by decide)⟩

/-- C4: an interrupt received while the loop runs makes the process log a
stop message, print one, return exit status 0, and report no error. -/
theorem claim_C4 (args : Args) (t0 : ℚ) (ts : List ℚ) :
    (mainRun args t0 ts LoopExit.interrupted).2 = 0
    ∧ (∃ pre, (mainRun args t0 ts LoopExit.interrupted).1
        = pre ++ [Event.logInfo "System time monitor stopped by user.",
                  Event.consolePrint "System time monitor stopped."])
    ∧ (mainRun args t0 ts LoopExit.interrupted).1.any isLogError = false := by
  refine ⟨rfl, ⟨[Event.logInfo "System time monitor started.",
      Event.consolePrint ("System time monitor started.  Logging to " ++ args.log_file)]
      ++ runLoop { args := args, last_time := t0 } ts, by simp [mainRun, handleExit]⟩, ?_⟩
  rw [mainRun]
  dsimp only
  rw [List.any_append, List.any_append, runLoop_any_isLogError]
  rfl

/-- C5: an unexpected failure in the loop region is reported to the log sink
and to the interactive output, and the process returns the non-zero status 1,
with nothing (in particular no further monitoring) after the report. -/
theorem claim_C5 (args : Args) (t0 : ℚ) (ts : List ℚ) (e : String) :
    (mainRun args t0 ts (LoopExit.failed e)).2 ≠ 0
    ∧ (mainRun args t0 ts (LoopExit.failed e)).2 = 1
    ∧ ∃ pre, (mainRun args t0 ts (LoopExit.failed e)).1
        = pre ++ [Event.logError ("An unexpected error occurred: " ++ e),
                  Event.consolePrint ("Error: " ++ e)] := by
  refine ⟨show (1 : Int) ≠ 0 by decide, rfl,
    ⟨[Event.logInfo "System time monitor started.",
      Event.consolePrint ("System time monitor started.  Logging to " ++ args.log_file)]
      ++ runLoop { args := args, last_time := t0 } ts, by simp [mainRun, handleExit]⟩⟩

/-- C7: each cycle performs exactly one `last_time` assignment, placed after
any alert emission and before the wait; and at every iteration boundary the
variable holds the clock reading of the previous cycle (the start reading
before the first cycle). -/
theorem claim_C7 (s : ProgState) (ts : List ℚ) (k : ℕ) (hk : k < ts.length) :
    (∀ cur : ℚ, ∃ alerts, (loopStep s cur).1
        = alerts ++ [Event.setLast cur, Event.sleep s.args.interval]
      ∧ ∀ e ∈ alerts, isSetLast e = false ∧ isSleep e = false)
    ∧ (stateAfter s (ts.take 0)).last_time = s.last_time
    ∧ (stateAfter s (ts.take (k + 1))).last_time = ts.get ⟨k, hk⟩ := by
  refine ⟨?_, rfl, stateAfter_take_lastTime ts s k hk⟩
  intro cur
  by_cases h : (s.args.threshold : ℚ) < |cur - s.last_time - (s.args.interval : ℚ)|
  · refine ⟨[Event.logWarning (alertLogMessage s.args.interval (cur - s.last_time)),
       Event.consolePrint (alertPrintMessage s.args.interval (cur - s.last_time))],
       by simp [loopStep, h], ?_⟩
    intro e he
    rcases List.mem_cons.mp he with rfl | he2
    · exact ⟨rfl, rfl⟩
    · rcases List.mem_singleton.mp he2 with rfl
      exact ⟨rfl, rfl⟩
  · refine ⟨[], by simp [loopStep, h], ?_⟩
    intro e he
    exact absurd he (List.not_mem_nil e)

/-- Witness for C7 at interval 1, threshold 5, start 0, readings 2 then 3,
boundary after the second cycle. -/
theorem claim_C7_witness :
    (1 < ([2, 3] : List ℚ).length)
    ∧ ((∀ cur : ℚ, ∃ alerts,
        (loopStep { args := { interval := 1, threshold := 5, log_file := "system_time_monitor.log" }, last_time := 0 } cur).1
        = alerts ++ [Event.setLast cur, Event.sleep (1 : Int)]
      ∧ ∀ e ∈ alerts, isSetLast e = false ∧ isSleep e = false)
    ∧ (stateAfter { args := { interval := 1, threshold := 5, log_file := "system_time_monitor.log" }, last_time := 0 } (([2, 3] : List ℚ).take 0)).last_time = 0
    ∧ (stateAfter { args := { interval := 1, threshold := 5, log_file := "system_time_monitor.log" }, last_time := 0 } (([2, 3] : List ℚ).take (1 + 1))).last_time = (3 : ℚ)) :=
  ⟨by decide,
   claim_C7 { args := { interval := 1, threshold := 5, log_file := "system_time_monitor.log" }, last_time := 0 }
     [2, 3] 1 (by decide)⟩

/-- C9: with interval 1 and threshold 5, a cycle measuring a delta of 10
seconds emits an alert to the log and to the console whose message contains
the delta rendered to two decimal places and the expected-interval text. -/
theorem claim_C9 :
    (loopStep { args := { interval := 1, threshold := 5, log_file := "system_time_monitor.log" }, last_time := 0 } 10).1.any
        (fun e => isLogWarning e && strContains (eventMsg e) "10.00" && strContains (eventMsg e) "1s") = true
    ∧ (loopStep { args := { interval := 1, threshold := 5, log_file := "system_time_monitor.log" }, last_time := 0 } 10).1.any
        (fun e => isConsolePrint e && strContains (eventMsg e) "10.00" && strContains (eventMsg e) "1s") = true :=
  ⟨by decide, by decide⟩

/-- C10: a cycle changes nothing of the program state except `last_time`:
the configuration read at startup (interval, threshold, log destination)
survives any number of cycles unchanged. -/
theorem claim_C10 (s : ProgState) (ts : List ℚ) (cur : ℚ) :
    (stateAfter s ts).args.interval = s.args.interval
    ∧ (stateAfter s ts).args.threshold = s.args.threshold
    ∧ (stateAfter s ts).args.log_file = s.args.log_file
    ∧ (loopStep s cur).2.args = s.args
    ∧ (loopStep s cur).2.last_time = cur := by
  have h := stateAfter_args ts s
  exact ⟨by rw [h], by rw [h], by rw [h], by rw [loopStep_snd], by rw [loopStep_snd]⟩

/-! ### Configuration validation (C2) -/

theorem check_positive_int_pos (i : Int) (h : 0 < i) :
    check_positive_int (PyVal.int i) = Except.ok i := by
  unfold check_positive_int pyToInt
  dsimp only
  rw [if_neg (not_le.mpr h)]

theorem check_positive_int_nonpos (i : Int) (h : i ≤ 0) :
    check_positive_int (PyVal.int i)
      = Except.error ("Invalid positive int value: \x27" ++ toString i ++ "\x27") := by
  unfold check_positive_int pyToInt pyStrOf
  dsimp only
  rw [if_pos h]

/-- C2 counterexample: for the non-numeric supplied value "abc", argparse
rejects the option with a usage error and the process exits with status 2,
not with status 1 as the claim states. -/
theorem claim_C2_counterexample :
    startup (Supplied.cli "abc") (Supplied.dflt 5) "system_time_monitor.log"
      = StartupOutcome.usageError 2
    ∧ startupExitCode (startup (Supplied.cli "abc") (Supplied.dflt 5) "system_time_monitor.log")
      = some 2
    ∧ startupExitCode (startup (Supplied.cli "abc") (Supplied.dflt 5) "system_time_monitor.log")
      ≠ some 1 :=
  ⟨by decide, by decide, by decide⟩

/-- C2 amended: a supplied positive integer value is accepted unchanged into
the configuration; a numeric non-positive value is rejected by the startup
validation, which reports an error and exits with status 1 before any
monitoring; a non-numeric value is instead rejected by the argument parser
before any monitoring, with a usage error and exit status 2. -/
theorem claim_C2_amended (iSup tSup : Supplied) (lf : String) (i t : Int) :
    (argparseInt iSup = Except.ok i → argparseInt tSup = Except.ok t →
        0 < i → 0 < t →
        startup iSup tSup lf
          = StartupOutcome.started { interval := i, threshold := t, log_file := lf })
    ∧ (argparseInt iSup = Except.ok i → argparseInt tSup = Except.ok t →
        i ≤ 0 → ∃ evs, startup iSup tSup lf = StartupOutcome.configError evs 1)
    ∧ (argparseInt iSup = Except.ok i → argparseInt tSup = Except.ok t →
        0 < i → t ≤ 0 → ∃ evs, startup iSup tSup lf = StartupOutcome.configError evs 1)
    ∧ (argparseInt iSup = Except.error () →
        startup iSup tSup lf = StartupOutcome.usageError 2)
    ∧ (argparseInt iSup = Except.ok i → argparseInt tSup = Except.error () →
        startup iSup tSup lf = StartupOutcome.usageError 2) := by
  refine ⟨?_, ?_, ?_, ?_, ?_⟩
  · intro hI hT hiPos htPos
    unfold startup
    rw [hI, hT]
    dsimp only
    unfold validateArgs
    rw [check_positive_int_pos i hiPos, check_positive_int_pos t htPos]
  · intro hI hT hiNeg
    refine ⟨[Event.logError ("Error: " ++ ("Invalid positive int value: \x27" ++ toString i ++ "\x27")),
             Event.consolePrint ("Error: " ++ ("Invalid positive int value: \x27" ++ toString i ++ "\x27"))], ?_⟩
    unfold startup
    rw [hI, hT]
    dsimp only
    unfold validateArgs
    rw [check_positive_int_nonpos i hiNeg]
  · intro hI hT hiPos htNeg
    refine ⟨[Event.logError ("Error: " ++ ("Invalid positive int value: \x27" ++ toString t ++ "\x27")),
             Event.consolePrint ("Error: " ++ ("Invalid positive int value: \x27" ++ toString t ++ "\x27"))], ?_⟩
    unfold startup
    rw [hI, hT]
    dsimp only
    unfold validateArgs
    rw [check_positive_int_pos i hiPos, check_positive_int_nonpos t htNeg]
  · intro hI
    unfold startup
    rw [hI]
  · intro hI hT
    unfold startup
    rw [hI, hT]

/-- Witness for the amended C2 at supplied values "7" and "9". -/
theorem claim_C2_amended_witness :
    (argparseInt (Supplied.cli "7") = Except.ok 7
     ∧ argparseInt (Supplied.cli "9") = Except.ok 9
     ∧ 0 < (7 : Int) ∧ 0 < (9 : Int))
    ∧ startup (Supplied.cli "7") (Supplied.cli "9") "system_time_monitor.log"
        = StartupOutcome.started { interval := 7, threshold := 9, log_file := "system_time_monitor.log" } :=
  ⟨⟨rfl, rfl, by decide, by decide⟩,
   (claim_C2_amended (Supplied.cli "7") (Supplied.cli "9") "system_time_monitor.log" 7 9).1
     rfl rfl (by decide) (by decide)⟩

end Development

end MonitorTime
